import Mathlib

/-!
Verification of the Poc-Playwright test-automation framework's core layers
against its specification.

The development shallowly embeds, from the TypeScript sources:
 - the fluent step-queue builders `LoginFormComponent` and `MyInfoFormComponent`
   (src/fluent/components), whose `withX` methods push zero-argument closures
   onto a private `steps` array and whose terminal `submit`/`save` methods
   run the queued closures in order and then click the finish control;
 - the retry wrapper `BasePage.withRetry` (src/pages/BasePage.ts);
 - the error-assertion fallback `LoginAssertions.expectInvalidCredentialsError`;
 - the network-mock helpers `NetworkMock.mockSequential` and
   `NetworkMock.mockApiRoute` / `mockGet` / `mockPost` / `mockPut` / `mockDelete`;
 - the environment-configuration module src/config/environment.ts.

UI effects are modelled as an explicit trace of `UIEvent`s: each page-object
method call that a queued closure performs is one event.  A UI environment
`UIEnv` says, for each event, whether the underlying action fails (and with
which error message) when it is invoked; invoking an event that fails aborts
the surrounding control flow exactly where the TypeScript `await` would throw.
-/

/-- One page-object method invocation performed by a queued step or by a
terminal method.  These are the calls appearing in the bodies of the closures
pushed by the two builders, plus the finish actions. -/
inductive UIEvent
  | enterUsername (s : String)
  | enterPassword (s : String)
  | clickForgotPassword
  | clickLoginButton
  | updateFirstName (s : String)
  | updateMiddleName (s : String)
  | updateLastName (s : String)
  | clickSaveButton
  | waitForLoadState
  deriving DecidableEq, Repr

/-- A queued `Step` (`type Step = () => Promise<void>`) is the sequence of
page-object calls its closure performs when invoked. -/
abbrev Step := List UIEvent

/-- The UI environment: for each page-object call, `none` means the call
succeeds, `some msg` means the call rejects with error `msg` (for example the
target element never became visible within its timeout). -/
abbrev UIEnv := UIEvent → Option String

/-- Run a list of page-object calls in order, stopping at the first failure.
Returns the calls actually invoked (the failing one included) and the error of
the first failing call, if any. -/
def runEvents (env : UIEnv) : List UIEvent → List UIEvent × Option String
  | [] => ([], none)
  | e :: rest =>
    match env e with
    | some msg => ([e], some msg)
    | none =>
      let r := runEvents env rest
      (e :: r.1, r.2)

/-- Run a list of queued steps in order (`for (const step of this.steps) await step()`),
stopping at the first failing step.  Returns the invoked calls and the error. -/
def runSteps (env : UIEnv) : List Step → List UIEvent × Option String
  | [] => ([], none)
  | s :: rest =>
    let r := runEvents env s
    match r.2 with
    | some msg => (r.1, some msg)
    | none =>
      let r2 := runSteps env rest
      (r.1 ++ r2.1, r2.2)

/-- The `LoginFormComponent` builder state: the identity of the underlying
`LoginPage` object (`pageRef` models the `loginPage` reference) and the private
`steps` array. -/
structure LoginFormComponent where
  pageRef : Nat
  steps : List Step
  deriving DecidableEq, Repr

namespace LoginFormComponent

/-- `new LoginFormComponent(loginPage)`: empty step queue. -/
def mkNew (pageRef : Nat) : LoginFormComponent := ⟨pageRef, []⟩

/-- `withUsername(username)`: pushes one closure calling
`loginPage.enterUsername(username)` and returns `this`.  The second component
is the list of UI calls performed during the method call itself (none: the
body only pushes the closure). -/
def withUsername (b : LoginFormComponent) (username : String) :
    LoginFormComponent × List UIEvent :=
  ({ b with steps := b.steps ++ [[UIEvent.enterUsername username]] }, [])

/-- `withPassword(password)`: pushes one closure calling
`loginPage.enterPassword(password)` and returns `this`. -/
def withPassword (b : LoginFormComponent) (password : String) :
    LoginFormComponent × List UIEvent :=
  ({ b with steps := b.steps ++ [[UIEvent.enterPassword password]] }, [])

/-- `clickForgotPassword()`: pushes one closure calling
`loginPage.clickForgotPassword()` and returns `this`. -/
def clickForgotPassword (b : LoginFormComponent) :
    LoginFormComponent × List UIEvent :=
  ({ b with steps := b.steps ++ [[UIEvent.clickForgotPassword]] }, [])

/-- `perform()`: runs every queued step in insertion order, awaiting each. -/
def perform (b : LoginFormComponent) (env : UIEnv) : List UIEvent × Option String :=
  runSteps env b.steps

/-- `submit()`: `await this.perform(); await this.loginPage.clickLoginButton()`.
Returns the builder state after the call (the source never mutates `steps`
here), the invoked UI calls, and the error, if any. -/
def submit (b : LoginFormComponent) (env : UIEnv) :
    LoginFormComponent × List UIEvent × Option String :=
  let r := perform b env
  match r.2 with
  | some msg => (b, r.1, some msg)
  | none =>
    match env UIEvent.clickLoginButton with
    | some msg => (b, r.1 ++ [UIEvent.clickLoginButton], some msg)
    | none => (b, r.1 ++ [UIEvent.clickLoginButton], none)

end LoginFormComponent

/-- The `MyInfoFormComponent` builder state, mirroring the source. -/
structure MyInfoFormComponent where
  pageRef : Nat
  steps : List Step
  deriving DecidableEq, Repr

namespace MyInfoFormComponent

/-- `new MyInfoFormComponent(myInfoPage)`: empty step queue. -/
def mkNew (pageRef : Nat) : MyInfoFormComponent := ⟨pageRef, []⟩

/-- `withFirstName(firstName)`: pushes one closure calling
`myInfoPage.updateFirstName(firstName)` and returns `this`. -/
def withFirstName (b : MyInfoFormComponent) (firstName : String) :
    MyInfoFormComponent × List UIEvent :=
  ({ b with steps := b.steps ++ [[UIEvent.updateFirstName firstName]] }, [])

/-- `withMiddleName(middleName)`: pushes one closure calling
`myInfoPage.updateMiddleName(middleName)` and returns `this`. -/
def withMiddleName (b : MyInfoFormComponent) (middleName : String) :
    MyInfoFormComponent × List UIEvent :=
  ({ b with steps := b.steps ++ [[UIEvent.updateMiddleName middleName]] }, [])

/-- `withLastName(lastName)`: pushes one closure calling
`myInfoPage.updateLastName(lastName)` and returns `this`. -/
def withLastName (b : MyInfoFormComponent) (lastName : String) :
    MyInfoFormComponent × List UIEvent :=
  ({ b with steps := b.steps ++ [[UIEvent.updateLastName lastName]] }, [])

/-- `withFullName(first, middle, last)`: pushes ONE closure whose body awaits
`updateFirstName`, `updateMiddleName`, `updateLastName` in order, and returns
`this`. -/
def withFullName (b : MyInfoFormComponent) (first middle last : String) :
    MyInfoFormComponent × List UIEvent :=
  ({ b with
      steps := b.steps ++
        [[UIEvent.updateFirstName first, UIEvent.updateMiddleName middle,
          UIEvent.updateLastName last]] }, [])

/-- The calls performed by `myInfoPage.saveInformation()`:
`clickSaveButton` then `waitForLoadState`. -/
def saveInformationEvents : List UIEvent :=
  [UIEvent.clickSaveButton, UIEvent.waitForLoadState]

/-- `save()`: runs every queued step in insertion order, then
`await this.myInfoPage.saveInformation()`.  Returns the builder state after
the call (the source never mutates `steps` here), the invoked UI calls, and
the error, if any. -/
def save (b : MyInfoFormComponent) (env : UIEnv) :
    MyInfoFormComponent × List UIEvent × Option String :=
  let r := runSteps env b.steps
  match r.2 with
  | some msg => (b, r.1, some msg)
  | none =>
    let rf := runEvents env saveInformationEvents
    (b, r.1 ++ rf.1, rf.2)

end MyInfoFormComponent

/-- If every call in the list succeeds, the invoked trace is the list itself. -/
theorem runEvents_ok_trace (env : UIEnv) :
    ∀ es : List UIEvent, (runEvents env es).2 = none → (runEvents env es).1 = es := by
  intro es
  induction es with
  | nil => intro _; rfl
  | cons e rest ih =>
    intro h
    cases henv : env e with
    | some msg => simp [runEvents, henv] at h
    | none =>
      simp only [runEvents, henv] at h ⊢
      rw [ih h]

/-- If the whole queue succeeds, the invoked trace is the concatenation of the
queued steps, in insertion order. -/
theorem runSteps_ok_trace (env : UIEnv) :
    ∀ ss : List Step, (runSteps env ss).2 = none → (runSteps env ss).1 = ss.flatten := by
  intro ss
  induction ss with
  | nil => intro _; rfl
  | cons s rest ih =>
    intro h
    cases hs : (runEvents env s).2 with
    | some msg => simp [runSteps, hs] at h
    | none =>
      simp only [runSteps, hs, List.flatten_cons] at h ⊢
      rw [runEvents_ok_trace env s hs, ih h]

/-- If the steps before position `k` succeed and the `k`-th step fails, running
the queue stops inside the `k`-th step: the trace is the prefix's calls plus
the failing step's invoked prefix, the error is the failing call's error, and
no later step contributes any call. -/
theorem runSteps_fail_at (env : UIEnv) (s : Step) (t : List UIEvent) (msg : String)
    (hs : runEvents env s = (t, some msg)) :
    ∀ (pre post : List Step), (runSteps env pre).2 = none →
      runSteps env (pre ++ s :: post) = ((pre.flatten ++ t), some msg) := by
  intro pre
  induction pre with
  | nil =>
    intro post _
    simp [runSteps, hs]
  | cons p rest ih =>
    intro post h
    cases hp : (runEvents env p).2 with
    | some m => simp [runSteps, hp] at h
    | none =>
      simp only [runSteps, hp] at h
      simp only [List.cons_append, runSteps, hp, List.append_eq, List.flatten_cons]
      rw [ih post h, runEvents_ok_trace env p hp]
      simp [List.append_assoc]

/-- A UI environment in which every page-object call succeeds. -/
def envAllOk : UIEnv := fun _ => none

/-- A UI environment in which entering the password "bad" and updating the
middle name "M" fail (their elements never become visible) and every other
call succeeds. -/
def envTwoFails : UIEnv := fun e =>
  if e = UIEvent.enterPassword "bad" ∨ e = UIEvent.updateMiddleName "M" then
    some "element not visible"
  else none

/-- A login builder with two queued steps: username then password. -/
def loginBuilderEx : LoginFormComponent :=
  (((LoginFormComponent.mkNew 0).withUsername "Admin").1.withPassword "admin123").1

/-- A login builder with three queued steps, the second of which fails under
`envPasswordFails`. -/
def loginBuilderFail : LoginFormComponent :=
  ((((LoginFormComponent.mkNew 0).withUsername "Admin").1.withPassword
      "bad").1.clickForgotPassword).1

/-- A my-info builder with two queued steps: a first-name step and one
combined full-name step. -/
def myInfoBuilderEx : MyInfoFormComponent :=
  (((MyInfoFormComponent.mkNew 1).withFirstName "John").1.withFullName "A" "B" "C").1

/-- A my-info builder whose second queued step is a combined full-name step
that fails at its middle-name sub-call under `envMiddleFails`. -/
def myInfoBuilderFail : MyInfoFormComponent :=
  ((((MyInfoFormComponent.mkNew 1).withFirstName "John").1.withFullName
      "F" "M" "L").1.withLastName "Doe").1

/-- If every queued step succeeds, `submit` invokes exactly the queued calls
in insertion order followed by the login-button click. -/
theorem submit_ok_trace (env : UIEnv) (b : LoginFormComponent)
    (h1 : (LoginFormComponent.perform b env).2 = none) :
    (LoginFormComponent.submit b env).2.1
      = b.steps.flatten ++ [UIEvent.clickLoginButton] := by
  have hperf : (runSteps env b.steps).2 = none := h1
  cases henv : env UIEvent.clickLoginButton with
  | some msg =>
    simp only [LoginFormComponent.submit, LoginFormComponent.perform, hperf, henv]
    rw [runSteps_ok_trace env b.steps hperf]
  | none =>
    simp only [LoginFormComponent.submit, LoginFormComponent.perform, hperf, henv]
    rw [runSteps_ok_trace env b.steps hperf]

/-- If every queued step succeeds and the finishing calls succeed, `save`
invokes exactly the queued calls in insertion order followed by the save
click and the load-state wait. -/
theorem save_ok_trace (env : UIEnv) (b2 : MyInfoFormComponent)
    (h2 : (runSteps env b2.steps).2 = none)
    (hs1 : env UIEvent.clickSaveButton = none)
    (hs2 : env UIEvent.waitForLoadState = none) :
    (MyInfoFormComponent.save b2 env).2.1
      = b2.steps.flatten ++ [UIEvent.clickSaveButton, UIEvent.waitForLoadState] := by
  have hfin : runEvents env MyInfoFormComponent.saveInformationEvents
      = ([UIEvent.clickSaveButton, UIEvent.waitForLoadState], none) := by
    simp [runEvents, MyInfoFormComponent.saveInformationEvents, hs1, hs2]
  simp only [MyInfoFormComponent.save, h2, hfin]
  rw [runSteps_ok_trace env b2.steps h2]

/-- Claim C1: for every Step-Queue Builder with N queued actions, the terminal
method (`submit` for the login form, `save` for the my-info form) invokes the
queued actions in exactly the order they were queued, awaiting each one, and
performs the fixed finishing action (click the login button, resp. the save
control followed by the load-state wait inside `saveInformation`) strictly
after all N queued actions have completed: when the queued actions succeed,
the invoked-call trace is exactly the concatenation of the queued steps in
insertion order followed by the finishing calls. -/
theorem claim_C1_ordering (env : UIEnv) (b : LoginFormComponent)
    (b2 : MyInfoFormComponent)
    (h1 : (LoginFormComponent.perform b env).2 = none)
    (h2 : (runSteps env b2.steps).2 = none)
    (hs1 : env UIEvent.clickSaveButton = none)
    (hs2 : env UIEvent.waitForLoadState = none) :
    (LoginFormComponent.submit b env).2.1
        = b.steps.flatten ++ [UIEvent.clickLoginButton]
    ∧ (MyInfoFormComponent.save b2 env).2.1
        = b2.steps.flatten ++ [UIEvent.clickSaveButton, UIEvent.waitForLoadState] :=
  ⟨submit_ok_trace env b h1, save_ok_trace env b2 h2 hs1 hs2⟩

/-- Witness for C1 at concrete inputs: a login builder with the two steps
username/password and a my-info builder with a first-name step plus one
combined full-name step, in the all-succeed environment. -/
theorem claim_C1_ordering_witness :
    (LoginFormComponent.submit loginBuilderEx envAllOk).2.1
        = loginBuilderEx.steps.flatten ++ [UIEvent.clickLoginButton]
    ∧ (MyInfoFormComponent.save myInfoBuilderEx envAllOk).2.1
        = myInfoBuilderEx.steps.flatten
            ++ [UIEvent.clickSaveButton, UIEvent.waitForLoadState] :=
  claim_C1_ordering envAllOk loginBuilderEx myInfoBuilderEx rfl rfl rfl rfl

/-- Claim C2: if the step at position k fails during the terminal call, the
terminal method fails with that same error (`some msg`, verbatim), invokes no
queued step after position k, does not invoke the finishing action, and
retains the effects of the already-invoked calls: the result trace is exactly
the successful prefix's calls followed by the failing step's invoked prefix,
with no rollback events.  Stated for both `submit` and `save`. -/
theorem claim_C2_failure_stops (env : UIEnv) (b : LoginFormComponent)
    (b2 : MyInfoFormComponent)
    (pre post : List Step) (s : Step) (t : List UIEvent) (msg : String)
    (pre2 post2 : List Step) (s2 : Step) (t2 : List UIEvent) (msg2 : String)
    (hb : b.steps = pre ++ s :: post)
    (hpre : (runSteps env pre).2 = none)
    (hs : runEvents env s = (t, some msg))
    (hb2 : b2.steps = pre2 ++ s2 :: post2)
    (hpre2 : (runSteps env pre2).2 = none)
    (hs2 : runEvents env s2 = (t2, some msg2)) :
    LoginFormComponent.submit b env = (b, pre.flatten ++ t, some msg)
    ∧ MyInfoFormComponent.save b2 env = (b2, pre2.flatten ++ t2, some msg2) := by
  constructor
  · have hrun : runSteps env b.steps = (pre.flatten ++ t, some msg) := by
      rw [hb]; exact runSteps_fail_at env s t msg hs pre post hpre
    simp only [LoginFormComponent.submit, LoginFormComponent.perform, hrun]
  · have hrun : runSteps env b2.steps = (pre2.flatten ++ t2, some msg2) := by
      rw [hb2]; exact runSteps_fail_at env s2 t2 msg2 hs2 pre2 post2 hpre2
    simp only [MyInfoFormComponent.save, hrun]

/-- Witness for C2 at concrete inputs: the login builder queued
username/password/forgot-password where the password step fails, and the
my-info builder queued first-name / combined full-name / last-name where the
combined step fails at its middle-name sub-call (so the trace keeps the
combined step's first-name call, drops the rest of that step, the later step,
and the finishing action). -/
theorem claim_C2_failure_stops_witness :
    LoginFormComponent.submit loginBuilderFail envTwoFails
      = (loginBuilderFail,
         [UIEvent.enterUsername "Admin", UIEvent.enterPassword "bad"],
         some "element not visible")
    ∧ MyInfoFormComponent.save myInfoBuilderFail envTwoFails
      = (myInfoBuilderFail,
         [UIEvent.updateFirstName "John", UIEvent.updateFirstName "F",
          UIEvent.updateMiddleName "M"],
         some "element not visible") :=
  claim_C2_failure_stops envTwoFails loginBuilderFail myInfoBuilderFail
    [[UIEvent.enterUsername "Admin"]] [[UIEvent.clickForgotPassword]]
    [UIEvent.enterPassword "bad"] [UIEvent.enterPassword "bad"] "element not visible"
    [[UIEvent.updateFirstName "John"]] [[UIEvent.updateLastName "Doe"]]
    [UIEvent.updateFirstName "F", UIEvent.updateMiddleName "M",
      UIEvent.updateLastName "L"]
    [UIEvent.updateFirstName "F", UIEvent.updateMiddleName "M"]
    "element not visible"
    rfl (by decide) (by decide) rfl (by decide) (by decide)

/-- Claim C3: every `withX` method returns the same builder instance (the
underlying page reference is unchanged and the result is the input object,
its `steps` array mutated in place), appends exactly one Action to the step
queue, and performs no UI call at method-call time (the performed-call list is
empty); `withFullName(first, middle, last)` appends exactly ONE combined
Action covering all three sub-fields, not three discrete Actions. -/
theorem claim_C3_withX_queue (b : LoginFormComponent) (b2 : MyInfoFormComponent)
    (u p f m l x y z : String) :
    (b.withUsername u
        = ({ b with steps := b.steps ++ [[UIEvent.enterUsername u]] }, []))
    ∧ (b.withPassword p
        = ({ b with steps := b.steps ++ [[UIEvent.enterPassword p]] }, []))
    ∧ (b.clickForgotPassword
        = ({ b with steps := b.steps ++ [[UIEvent.clickForgotPassword]] }, []))
    ∧ (b2.withFirstName f
        = ({ b2 with steps := b2.steps ++ [[UIEvent.updateFirstName f]] }, []))
    ∧ (b2.withMiddleName m
        = ({ b2 with steps := b2.steps ++ [[UIEvent.updateMiddleName m]] }, []))
    ∧ (b2.withLastName l
        = ({ b2 with steps := b2.steps ++ [[UIEvent.updateLastName l]] }, []))
    ∧ (b2.withFullName x y z
        = ({ b2 with steps := b2.steps ++
              [[UIEvent.updateFirstName x, UIEvent.updateMiddleName y,
                UIEvent.updateLastName z]] }, []))
    ∧ (b.withUsername u).1.pageRef = b.pageRef
    ∧ (b2.withFullName x y z).1.pageRef = b2.pageRef
    ∧ (b.withUsername u).1.steps.length = b.steps.length + 1
    ∧ (b2.withFullName x y z).1.steps.length = b2.steps.length + 1 := by
  refine ⟨rfl, rfl, rfl, rfl, rfl, rfl, rfl, rfl, rfl, ?_, ?_⟩ <;>
    simp [LoginFormComponent.withUsername, MyInfoFormComponent.withFullName]

/-- Counterexample to claim C4: after a completed terminal call the queue is
NOT drained.  Concretely, submitting the two-step login builder in the
all-succeed environment completes (no error), yet the builder still holds
both queued Actions afterwards — `submit`/`save` never clear the `steps`
array, so every invoked Action is retained. -/
theorem claim_C4_counterexample :
    (LoginFormComponent.submit loginBuilderEx envAllOk).2.2 = none
    ∧ (LoginFormComponent.submit loginBuilderEx envAllOk).1.steps
        = [[UIEvent.enterUsername "Admin"], [UIEvent.enterPassword "admin123"]]
    ∧ (LoginFormComponent.submit loginBuilderEx envAllOk).1.steps ≠ [] := by
  refine ⟨rfl, rfl, ?_⟩
  decide

/-- Claim C4 as amended: after the terminal call the builder's step queue is
unchanged — every queued Action is retained, none is dropped after being
invoked — and consequently a second terminal call on the same builder
re-invokes all queued Actions again followed by the finishing action (which
is why reusing the builder is not supported).  Stated for both builders. -/
theorem claim_C4_amended_queue_retained (env : UIEnv) (b : LoginFormComponent)
    (b2 : MyInfoFormComponent)
    (h1 : (LoginFormComponent.perform b env).2 = none)
    (h2 : (runSteps env b2.steps).2 = none)
    (hs1 : env UIEvent.clickSaveButton = none)
    (hs2 : env UIEvent.waitForLoadState = none) :
    (LoginFormComponent.submit b env).1 = b
    ∧ (MyInfoFormComponent.save b2 env).1 = b2
    ∧ (LoginFormComponent.submit (LoginFormComponent.submit b env).1 env).2.1
        = b.steps.flatten ++ [UIEvent.clickLoginButton]
    ∧ (MyInfoFormComponent.save (MyInfoFormComponent.save b2 env).1 env).2.1
        = b2.steps.flatten
            ++ [UIEvent.clickSaveButton, UIEvent.waitForLoadState] := by
  have hsub : (LoginFormComponent.submit b env).1 = b := by
    have hperf : (runSteps env b.steps).2 = none := h1
    cases henv : env UIEvent.clickLoginButton <;>
      simp [LoginFormComponent.submit, LoginFormComponent.perform, hperf, henv]
  have hsave : (MyInfoFormComponent.save b2 env).1 = b2 := by
    cases hfin : (runEvents env MyInfoFormComponent.saveInformationEvents).2 <;>
      simp [MyInfoFormComponent.save, h2, hfin]
  refine ⟨hsub, hsave, ?_, ?_⟩
  · rw [hsub]
    exact submit_ok_trace env b h1
  · rw [hsave]
    exact save_ok_trace env b2 h2 hs1 hs2

/-- Witness for the amended C4 at concrete inputs: the two example builders in
the all-succeed environment keep their queues and replay them on a second
terminal call. -/
theorem claim_C4_amended_queue_retained_witness :
    (LoginFormComponent.submit loginBuilderEx envAllOk).1 = loginBuilderEx
    ∧ (MyInfoFormComponent.save myInfoBuilderEx envAllOk).1 = myInfoBuilderEx
    ∧ (LoginFormComponent.submit
          (LoginFormComponent.submit loginBuilderEx envAllOk).1 envAllOk).2.1
        = loginBuilderEx.steps.flatten ++ [UIEvent.clickLoginButton]
    ∧ (MyInfoFormComponent.save
          (MyInfoFormComponent.save myInfoBuilderEx envAllOk).1 envAllOk).2.1
        = myInfoBuilderEx.steps.flatten
            ++ [UIEvent.clickSaveButton, UIEvent.waitForLoadState] :=
  claim_C4_amended_queue_retained envAllOk loginBuilderEx myInfoBuilderEx
    rfl rfl rfl rfl

/-- One configured response of `NetworkMock.mockSequential`: an HTTP status
and the body that `route.fulfill` receives (`some` holds the
`JSON.stringify` output of a truthy body; `none` models a falsy body, for
which the source passes `undefined`). -/
structure SeqResponseSpec where
  status : Nat
  body : Option String
  deriving DecidableEq, Repr

/-- One matching intercepted request against a `mockSequential` rule:
`responses[Math.min(callCount, responses.length - 1)]` is served, then the
per-rule counter `callCount` is incremented.  `none` models the undefined
lookup that an empty response list would produce. -/
def seqHandle (responses : List SeqResponseSpec) (callCount : Nat) :
    Option SeqResponseSpec × Nat :=
  (responses[min callCount (responses.length - 1)]?, callCount + 1)

/-- Serve `k` consecutive matching requests against a `mockSequential` rule
whose counter currently reads `count`, returning the responses served in
order. -/
def seqServe (responses : List SeqResponseSpec) (count : Nat) : Nat → List (Option SeqResponseSpec)
  | 0 => []
  | Nat.succ k =>
    let h := seqHandle responses count
    h.1 :: seqServe responses h.2 k

/-- Unrolling `seqServe`: the i-th response served after starting from counter
`count` is the configured response at clamped index `min (count + i) (len - 1)`. -/
theorem seqServe_eq_map (responses : List SeqResponseSpec) :
    ∀ (k count : Nat),
      seqServe responses count k
        = (List.range k).map
            (fun i => responses[min (count + i) (responses.length - 1)]?) := by
  intro k
  induction k with
  | zero => intro count; rfl
  | succ k ih =>
    intro count
    rw [List.range_succ_eq_map]
    simp only [seqServe, seqHandle, List.map_cons, List.map_map]
    congr 1
    rw [ih (count + 1)]
    apply List.map_congr_left
    intro i _
    simp only [Function.comp_apply]
    congr 2
    omega

/-- Claim C5: for a sequential mock rule with a non-empty configured response
list, the (n+1)-st matching intercepted request (0-indexed n) is fulfilled
with configured response n while n is within the list, and with the LAST
configured response for every later request (the per-rule counter saturates);
in particular with 3 configured responses the first five matching requests
yield responses 1, 2, 3, 3, 3. -/
theorem claim_C5_sequential_saturation (responses : List SeqResponseSpec)
    (k n : Nat) (hne : responses ≠ []) (hnk : n < k) :
    (seqServe responses 0 k)[n]?
        = some (responses[min n (responses.length - 1)]?)
    ∧ (n < responses.length →
        (seqServe responses 0 k)[n]? = some (responses[n]?))
    ∧ (responses.length ≤ n →
        (seqServe responses 0 k)[n]?
          = some (responses[responses.length - 1]?))
    ∧ (responses[min n (responses.length - 1)]?).isSome = true
    ∧ seqServe
        [⟨500, some "e1"⟩, ⟨502, some "e2"⟩, ⟨200, some "ok"⟩] 0 5
        = [some ⟨500, some "e1"⟩, some ⟨502, some "e2"⟩, some ⟨200, some "ok"⟩,
           some ⟨200, some "ok"⟩, some ⟨200, some "ok"⟩] := by
  have hlen : 0 < responses.length := List.length_pos.mpr hne
  have hbase : (seqServe responses 0 k)[n]?
      = some (responses[min n (responses.length - 1)]?) := by
    rw [seqServe_eq_map]
    rw [List.getElem?_map, List.getElem?_range hnk]
    simp
  refine ⟨hbase, ?_, ?_, ?_, by decide⟩
  · intro hn
    rw [hbase]
    congr 2
    omega
  · intro hn
    rw [hbase]
    congr 2
    omega
  · have : min n (responses.length - 1) < responses.length := by omega
    simp [List.getElem?_eq_getElem this]

/-- Witness for C5 at concrete inputs: three configured responses, five
matching requests. -/
theorem claim_C5_sequential_saturation_witness :
    ([⟨500, some "e1"⟩, ⟨502, some "e2"⟩, ⟨200, some "ok"⟩]
        : List SeqResponseSpec) ≠ []
    ∧ (3 : Nat) < 5
    ∧ (seqServe [⟨500, some "e1"⟩, ⟨502, some "e2"⟩, ⟨200, some "ok"⟩] 0 5)[3]?
        = some (([⟨500, some "e1"⟩, ⟨502, some "e2"⟩, ⟨200, some "ok"⟩]
            : List SeqResponseSpec)[min 3 (3 - 1)]?) :=
  ⟨by decide, by decide,
    (claim_C5_sequential_saturation
      [⟨500, some "e1"⟩, ⟨502, some "e2"⟩, ⟨200, some "ok"⟩] 5 3
      (by decide) (by decide)).1⟩

/-- An intercepted request as the mock route handler sees it (its URL already
matched the registered pattern; only the HTTP method matters to the handler). -/
structure MockRequest where
  method : String
  deriving DecidableEq, Repr

/-- What the route handler does with the intercepted request. -/
inductive RouteAction
  | continueUnmodified
  | fulfill (status : Nat) (headers : List (String × String)) (body : Option String)
  deriving DecidableEq, Repr

/-- Side effects the handler performs before fulfilling, in order. -/
inductive MockEffect
  | inspectionCallback
  | delay (ms : Nat)
  deriving DecidableEq, Repr

/-- The options of the private `NetworkMock.mockApiRoute` helper.  `body` is
`some s` for a non-null/defined body with `s` its `JSON.stringify` image, and
`none` for `null`/`undefined` (the source passes `undefined` to
`route.fulfill` then).  `hasOnRequest` records whether an `onRequest`
inspection callback was supplied. -/
structure MockApiRouteOptions where
  method : Option String
  status : Nat
  body : Option String
  delayMs : Nat
  headers : List (String × String)
  hasOnRequest : Bool
  deriving DecidableEq, Repr

/-- JavaScript's `toUpperCase` restricted to the ASCII method names the mock
helpers use: uppercase every character. -/
def jsToUpper (s : String) : String := String.mk (s.data.map Char.toUpper)

/-- The guard `if (method && request.method().toUpperCase() !== method.toUpperCase())`:
a truthy (non-empty) configured method that differs, case-insensitively, from
the request's method. -/
def methodMismatch (optMethod : Option String) (reqMethod : String) : Bool :=
  match optMethod with
  | some m => m != "" && jsToUpper reqMethod != jsToUpper m
  | none => false

/-- The body of the route handler that `NetworkMock.mockApiRoute` registers:
on a method mismatch, `route.continue()` and nothing else; otherwise run the
inspection callback (if configured), sleep the artificial delay (if positive),
and `route.fulfill` with the configured status, the JSON content type merged
with the configured headers, and the configured body. -/
def mockApiRouteHandler (opts : MockApiRouteOptions) (req : MockRequest) :
    RouteAction × List MockEffect :=
  if methodMismatch opts.method req.method then
    (RouteAction.continueUnmodified, [])
  else
    (RouteAction.fulfill opts.status
        (("Content-Type", "application/json") :: opts.headers) opts.body,
      (if opts.hasOnRequest then [MockEffect.inspectionCallback] else [])
        ++ (if opts.delayMs > 0 then [MockEffect.delay opts.delayMs] else []))

namespace NetworkMock

/-- `mockGet(urlPattern, data, delayMs)`: method filter GET, status 200,
body `data`, no inspection callback. -/
def mockGet (data : Option String) (delayMs : Nat) : MockApiRouteOptions :=
  { method := some "GET", status := 200, body := data, delayMs := delayMs,
    headers := [], hasOnRequest := false }

/-- `mockPost(urlPattern, data, delayMs)`: method filter POST, status 200. -/
def mockPost (data : Option String) (delayMs : Nat) : MockApiRouteOptions :=
  { method := some "POST", status := 200, body := data, delayMs := delayMs,
    headers := [], hasOnRequest := false }

/-- `mockPut(urlPattern, data, delayMs)`: method filter PUT, status 200. -/
def mockPut (data : Option String) (delayMs : Nat) : MockApiRouteOptions :=
  { method := some "PUT", status := 200, body := data, delayMs := delayMs,
    headers := [], hasOnRequest := false }

/-- `mockDelete(urlPattern, delayMs)`: method filter DELETE, status 204,
null body. -/
def mockDelete (delayMs : Nat) : MockApiRouteOptions :=
  { method := some "DELETE", status := 204, body := none, delayMs := delayMs,
    headers := [], hasOnRequest := false }

end NetworkMock

/-- The route handler registered by a helper rule (`mockGet`/`mockPost`/
`mockPut`/`mockDelete` all pass empty extra headers and no inspection
callback): a filter-mismatched request is continued with no effects; a
matching one is fulfilled with the rule's status, the JSON content type and
its body, after the artificial delay when one is configured. -/
theorem mockHelperHandler_cases (m : String) (status : Nat) (body : Option String)
    (delayMs : Nat) (req : MockRequest) (hne : m ≠ "") :
    (jsToUpper req.method ≠ jsToUpper m →
      mockApiRouteHandler ⟨some m, status, body, delayMs, [], false⟩ req
        = (RouteAction.continueUnmodified, []))
    ∧ (jsToUpper req.method = jsToUpper m →
      mockApiRouteHandler ⟨some m, status, body, delayMs, [], false⟩ req
        = (RouteAction.fulfill status [("Content-Type", "application/json")] body,
            if delayMs > 0 then [MockEffect.delay delayMs] else [])) := by
  constructor
  · intro h
    have hmm : methodMismatch (some m) req.method = true := by
      simp [methodMismatch, hne, h]
    simp [mockApiRouteHandler, hmm]
  · intro h
    have hmm : methodMismatch (some m) req.method = false := by
      simp [methodMismatch, h]
    simp [mockApiRouteHandler, hmm]

/-- Claim C9: for every mock rule registered with an HTTP-method filter, a
matching-URL request whose method differs (case-insensitively) from the
filter is continued to the real backend with no mock effects at all (no
fulfilled mock response, no inspection callback, no artificial delay), while
a matching-method request is fulfilled with the configured status, headers
(JSON content type plus the configured ones) and body, after the inspection
callback and the artificial delay run in that order; in particular, each of
the four helper rules `mockGet`/`mockPost`/`mockPut`/`mockDelete` continues
any request whose method is not its GET/POST/PUT/DELETE filter and fulfills a
matching-method request with status 200/200/200/204 and the given (resp.
null) body. -/
theorem claim_C9_method_filter (opts : MockApiRouteOptions) (m : String)
    (req req2 req3 : MockRequest) (data : Option String) (delayMs : Nat)
    (hm : opts.method = some m) (hne : m ≠ "")
    (hdiff : jsToUpper req.method ≠ jsToUpper m)
    (hmatch : jsToUpper req2.method = jsToUpper m) :
    mockApiRouteHandler opts req = (RouteAction.continueUnmodified, [])
    ∧ mockApiRouteHandler opts req2
        = (RouteAction.fulfill opts.status
            (("Content-Type", "application/json") :: opts.headers) opts.body,
          (if opts.hasOnRequest then [MockEffect.inspectionCallback] else [])
            ++ (if opts.delayMs > 0 then [MockEffect.delay opts.delayMs] else []))
    ∧ (jsToUpper req3.method ≠ "GET" →
        mockApiRouteHandler (NetworkMock.mockGet data delayMs) req3
          = (RouteAction.continueUnmodified, []))
    ∧ (jsToUpper req3.method = "GET" →
        mockApiRouteHandler (NetworkMock.mockGet data delayMs) req3
          = (RouteAction.fulfill 200 [("Content-Type", "application/json")] data,
              if delayMs > 0 then [MockEffect.delay delayMs] else []))
    ∧ (jsToUpper req3.method ≠ "POST" →
        mockApiRouteHandler (NetworkMock.mockPost data delayMs) req3
          = (RouteAction.continueUnmodified, []))
    ∧ (jsToUpper req3.method = "POST" →
        mockApiRouteHandler (NetworkMock.mockPost data delayMs) req3
          = (RouteAction.fulfill 200 [("Content-Type", "application/json")] data,
              if delayMs > 0 then [MockEffect.delay delayMs] else []))
    ∧ (jsToUpper req3.method ≠ "PUT" →
        mockApiRouteHandler (NetworkMock.mockPut data delayMs) req3
          = (RouteAction.continueUnmodified, []))
    ∧ (jsToUpper req3.method = "PUT" →
        mockApiRouteHandler (NetworkMock.mockPut data delayMs) req3
          = (RouteAction.fulfill 200 [("Content-Type", "application/json")] data,
              if delayMs > 0 then [MockEffect.delay delayMs] else []))
    ∧ (jsToUpper req3.method ≠ "DELETE" →
        mockApiRouteHandler (NetworkMock.mockDelete delayMs) req3
          = (RouteAction.continueUnmodified, []))
    ∧ (jsToUpper req3.method = "DELETE" →
        mockApiRouteHandler (NetworkMock.mockDelete delayMs) req3
          = (RouteAction.fulfill 204 [("Content-Type", "application/json")] none,
              if delayMs > 0 then [MockEffect.delay delayMs] else [])) := by
  have hG : jsToUpper "GET" = "GET" := by decide
  have hP : jsToUpper "POST" = "POST" := by decide
  have hU : jsToUpper "PUT" = "PUT" := by decide
  have hD : jsToUpper "DELETE" = "DELETE" := by decide
  refine ⟨?_, ?_, ?_, ?_, ?_, ?_, ?_, ?_, ?_, ?_⟩
  · have hmm : methodMismatch opts.method req.method = true := by
      rw [hm]
      simp [methodMismatch, hne, hdiff]
    simp [mockApiRouteHandler, hmm]
  · have hmm : methodMismatch opts.method req2.method = false := by
      rw [hm]
      simp [methodMismatch, hmatch]
    simp [mockApiRouteHandler, hmm]
  · intro h
    exact (mockHelperHandler_cases "GET" 200 data delayMs req3 (by decide)).1
      (by rw [hG]; exact h)
  · intro h
    exact (mockHelperHandler_cases "GET" 200 data delayMs req3 (by decide)).2
      (by rw [hG]; exact h)
  · intro h
    exact (mockHelperHandler_cases "POST" 200 data delayMs req3 (by decide)).1
      (by rw [hP]; exact h)
  · intro h
    exact (mockHelperHandler_cases "POST" 200 data delayMs req3 (by decide)).2
      (by rw [hP]; exact h)
  · intro h
    exact (mockHelperHandler_cases "PUT" 200 data delayMs req3 (by decide)).1
      (by rw [hU]; exact h)
  · intro h
    exact (mockHelperHandler_cases "PUT" 200 data delayMs req3 (by decide)).2
      (by rw [hU]; exact h)
  · intro h
    exact (mockHelperHandler_cases "DELETE" 204 none delayMs req3 (by decide)).1
      (by rw [hD]; exact h)
  · intro h
    exact (mockHelperHandler_cases "DELETE" 204 none delayMs req3 (by decide)).2
      (by rw [hD]; exact h)

/-- Witness for C9 at concrete inputs: a PUT rule with an inspection callback
and a 50 ms delay, probed with a POST request (continued, zero effects) and a
lowercase "put" request (fulfilled, callback before delay); the GET helper
rule probed with a lowercase "get" request (fulfilled with the given body,
no delay) and a POST request (continued); and the DELETE helper rule with a
5 ms delay probed with a lowercase "delete" request (fulfilled with status
204, null body, after the delay). -/
theorem claim_C9_method_filter_witness :
    mockApiRouteHandler
        ⟨some "PUT", 200, some "x", 50, [("X-Test", "1")], true⟩ ⟨"POST"⟩
      = (RouteAction.continueUnmodified, [])
    ∧ mockApiRouteHandler
        ⟨some "PUT", 200, some "x", 50, [("X-Test", "1")], true⟩ ⟨"put"⟩
      = (RouteAction.fulfill 200
          [("Content-Type", "application/json"), ("X-Test", "1")] (some "x"),
        [MockEffect.inspectionCallback, MockEffect.delay 50])
    ∧ mockApiRouteHandler (NetworkMock.mockGet (some "d") 0) ⟨"get"⟩
      = (RouteAction.fulfill 200 [("Content-Type", "application/json")]
          (some "d"), [])
    ∧ mockApiRouteHandler (NetworkMock.mockGet (some "d") 0) ⟨"POST"⟩
      = (RouteAction.continueUnmodified, [])
    ∧ mockApiRouteHandler (NetworkMock.mockDelete 5) ⟨"delete"⟩
      = (RouteAction.fulfill 204 [("Content-Type", "application/json")] none,
        [MockEffect.delay 5]) := by
  have h1 := claim_C9_method_filter
    ⟨some "PUT", 200, some "x", 50, [("X-Test", "1")], true⟩ "PUT"
    ⟨"POST"⟩ ⟨"put"⟩ ⟨"get"⟩ (some "d") 0 rfl (by decide) (by decide) (by decide)
  have h2 := claim_C9_method_filter
    ⟨some "PUT", 200, some "x", 50, [("X-Test", "1")], true⟩ "PUT"
    ⟨"POST"⟩ ⟨"put"⟩ ⟨"POST"⟩ (some "d") 0 rfl (by decide) (by decide) (by decide)
  have h3 := claim_C9_method_filter
    ⟨some "PUT", 200, some "x", 50, [("X-Test", "1")], true⟩ "PUT"
    ⟨"POST"⟩ ⟨"put"⟩ ⟨"delete"⟩ (some "d") 5 rfl (by decide) (by decide) (by decide)
  refine ⟨h1.1, by simpa using h1.2.1, ?_, ?_, ?_⟩
  · have hfill := h1.2.2.2.1 (by decide)
    simpa using hfill
  · exact h2.2.2.1 (by decide)
  · have hfill := h3.2.2.2.2.2.2.2.2.2 (by decide)
    simpa using hfill

/-- The fixed backoff `await this.page.waitForTimeout(250)` slept between
consecutive retry attempts, in milliseconds. -/
def backoffMs : Nat := 250

/-- `BasePage.defaultRetryCount`. -/
def defaultRetryCount : Nat := 2

/-- Outcome of a `BasePage.withRetry` call: the returned value or thrown
error (`Except.error none` models the trailing `throw lastError` reached with
`lastError` still undefined, which happens only when the loop body never ran),
the 1-based attempt indices actually tried in order, and the backoff pauses
slept between attempts (each entry a duration in ms, in order). -/
structure RetryOutcome (α : Type) where
  result : Except (Option String) α
  attemptsMade : List Nat
  pauses : List Nat
  deriving Repr

/-- The retry loop body over the remaining attempt indices.  At each index:
run `fn`; on success return its value; on failure, rethrow it if this was the
last allowed attempt, otherwise sleep the fixed backoff and continue.  An
exhausted (empty) index list throws the last recorded error. -/
def retryList {α : Type} (fn : Nat → Except String α) :
    List Nat → Option String → RetryOutcome α
  | [], last => ⟨Except.error last, [], []⟩
  | a :: rest, _ =>
    match fn a with
    | Except.ok v => ⟨Except.ok v, [a], []⟩
    | Except.error e =>
      if rest.isEmpty then ⟨Except.error (some e), [a], []⟩
      else
        let r := retryList fn rest (some e)
        ⟨r.result, a :: r.attemptsMade, backoffMs :: r.pauses⟩

/-- The attempt indices `1, 2, ..., n` of
`for (let attempt = 1; attempt <= retryCount; attempt++)`. -/
def attemptIndices : Nat → List Nat
  | 0 => []
  | Nat.succ n => attemptIndices n ++ [n + 1]

/-- `BasePage.withRetry(actionName, fn, retryCount)`, with `fn`'s behaviour
given per attempt index. -/
def withRetry {α : Type} (fn : Nat → Except String α) (retryCount : Nat) :
    RetryOutcome α :=
  retryList fn (attemptIndices retryCount) none

theorem attemptIndices_length : ∀ n : Nat, (attemptIndices n).length = n := by
  intro n
  induction n with
  | zero => rfl
  | succ n ih => simp [attemptIndices, ih]

theorem attemptIndices_mem : ∀ n a : Nat, a ∈ attemptIndices n ↔ 1 ≤ a ∧ a ≤ n := by
  intro n
  induction n with
  | zero => intro a; simp [attemptIndices]; omega
  | succ n ih =>
    intro a
    simp only [attemptIndices, List.mem_append, List.mem_singleton, ih]
    omega

/-- `attemptIndices R` splits at any index `k` with `1 ≤ k ≤ R`. -/
theorem attemptIndices_split (k : Nat) (hk : 1 ≤ k) :
    ∀ R : Nat, k ≤ R →
      ∃ post, attemptIndices R = attemptIndices (k - 1) ++ k :: post := by
  intro R
  induction R with
  | zero => intro h; omega
  | succ n ih =>
    intro h
    rcases Nat.lt_or_ge k (n + 1) with hlt | hge
    · obtain ⟨post, hpost⟩ := ih (by omega)
      exact ⟨post ++ [n + 1], by
        simp only [attemptIndices, hpost]
        simp⟩
    · have hkn : k = n + 1 := by omega
      refine ⟨[], ?_⟩
      subst hkn
      simp [attemptIndices]

/-- If every attempt in `pre ++ [aLast]` fails, the loop tries them all, sleeps
one fixed backoff between consecutive attempts, and rethrows the LAST
attempt's error verbatim. -/
theorem retryList_allFail {α : Type} (fn : Nat → Except String α)
    (errf : Nat → String) :
    ∀ (pre : List Nat) (aLast : Nat) (last : Option String),
      (∀ a ∈ pre ++ [aLast], fn a = Except.error (errf a)) →
      retryList fn (pre ++ [aLast]) last
        = ⟨Except.error (some (errf aLast)), pre ++ [aLast],
            List.replicate pre.length backoffMs⟩ := by
  intro pre
  induction pre with
  | nil =>
    intro aLast last h
    have ha := h aLast (by simp)
    simp [retryList, ha]
  | cons p pre ih =>
    intro aLast last h
    have hp := h p (by simp)
    have hrest : ∀ a ∈ pre ++ [aLast], fn a = Except.error (errf a) := by
      intro a ha
      exact h a (by simp [ha])
    have hne : (pre ++ [aLast]).isEmpty = false := by cases pre <;> rfl
    have hstep : retryList fn ((p :: pre) ++ [aLast]) last =
        ⟨(retryList fn (pre ++ [aLast]) (some (errf p))).result,
         p :: (retryList fn (pre ++ [aLast]) (some (errf p))).attemptsMade,
         backoffMs :: (retryList fn (pre ++ [aLast]) (some (errf p))).pauses⟩ := by
      simp [retryList, hp, hne]
    rw [hstep, ih aLast (some (errf p)) hrest]
    simp [List.replicate_succ]

/-- If every attempt in `pre` fails and attempt `k` succeeds, the loop tries
`pre` then `k`, sleeps one backoff per failed attempt, returns `k`'s value,
and never reaches the attempts after `k`. -/
theorem retryList_firstOk {α : Type} (fn : Nat → Except String α)
    (errf : Nat → String) (k : Nat) (v : α) (hk : fn k = Except.ok v) :
    ∀ (pre post : List Nat) (last : Option String),
      (∀ a ∈ pre, fn a = Except.error (errf a)) →
      retryList fn (pre ++ k :: post) last
        = ⟨Except.ok v, pre ++ [k], List.replicate pre.length backoffMs⟩ := by
  intro pre
  induction pre with
  | nil =>
    intro post last _
    simp [retryList, hk]
  | cons p pre ih =>
    intro post last h
    have hp := h p (by simp)
    have hrest : ∀ a ∈ pre, fn a = Except.error (errf a) := by
      intro a ha
      exact h a (by simp [ha])
    have hne : (pre ++ k :: post).isEmpty = false := by cases pre <;> rfl
    have hstep : retryList fn ((p :: pre) ++ k :: post) last =
        ⟨(retryList fn (pre ++ k :: post) (some (errf p))).result,
         p :: (retryList fn (pre ++ k :: post) (some (errf p))).attemptsMade,
         backoffMs :: (retryList fn (pre ++ k :: post) (some (errf p))).pauses⟩ := by
      simp [retryList, hp, hne]
    rw [hstep, ih post (some (errf p)) hrest]
    simp [List.replicate_succ]

/-- Claim C6: for an action run through `BasePage.withRetry` with retry count
R ≥ 1 (default 2): if the wrapped wait+act sequence first succeeds at attempt
k ≤ R, the wrapper returns that attempt's result after trying exactly attempts
1..k with one fixed 250 ms backoff between consecutive attempts; if every
attempt 1..R fails, the wrapper tries exactly the R attempts, sleeps exactly
R-1 fixed backoffs between them, and rethrows the R-th attempt's error
verbatim (never swallows or replaces it). -/
theorem claim_C6_retry_bound {α : Type} (fn : Nat → Except String α)
    (errf : Nat → String) (R k : Nat) (v : α)
    (hR : 1 ≤ R) (hk : 1 ≤ k) (hkR : k ≤ R) :
    ((∀ j, 1 ≤ j → j < k → fn j = Except.error (errf j)) →
      fn k = Except.ok v →
      withRetry fn R
        = ⟨Except.ok v, attemptIndices k, List.replicate (k - 1) backoffMs⟩)
    ∧ ((∀ j, 1 ≤ j → j ≤ R → fn j = Except.error (errf j)) →
      withRetry fn R
        = ⟨Except.error (some (errf R)), attemptIndices R,
            List.replicate (R - 1) backoffMs⟩) := by
  constructor
  · intro hfail hok
    obtain ⟨post, hsplit⟩ := attemptIndices_split k hk R hkR
    have hpre : ∀ a ∈ attemptIndices (k - 1), fn a = Except.error (errf a) := by
      intro a ha
      rw [attemptIndices_mem] at ha
      exact hfail a ha.1 (by omega)
    rw [withRetry, hsplit,
      retryList_firstOk fn errf k v hok (attemptIndices (k - 1)) post none hpre,
      attemptIndices_length]
    have hidx : attemptIndices (k - 1) ++ [k] = attemptIndices k := by
      obtain ⟨m, rfl⟩ := Nat.exists_eq_add_of_le hk
      simp [attemptIndices, Nat.add_comm]
    rw [hidx]
  · intro hfail
    have hsplit : attemptIndices R = attemptIndices (R - 1) ++ [R] := by
      obtain ⟨m, rfl⟩ := Nat.exists_eq_add_of_le hR
      simp [attemptIndices, Nat.add_comm]
    have hall : ∀ a ∈ attemptIndices (R - 1) ++ [R], fn a = Except.error (errf a) := by
      intro a ha
      rw [← hsplit, attemptIndices_mem] at ha
      exact hfail a ha.1 ha.2
    rw [withRetry, hsplit, retryList_allFail fn errf (attemptIndices (R - 1)) R none hall,
      attemptIndices_length]

/-- Witness for C6 at concrete inputs with R = 2 (the default): an action
visible only on the second (last allowed) attempt succeeds with one backoff;
an action that never becomes visible fails after exactly 2 attempts with the
second attempt's error. -/
theorem claim_C6_retry_bound_witness :
    withRetry (fun j => if j = 2 then Except.ok 42 else Except.error "timeout 1") 2
      = ⟨Except.ok 42, attemptIndices 2, List.replicate 1 backoffMs⟩
    ∧ withRetry (fun j => (Except.error ("timeout " ++ toString j) : Except String Nat)) 2
      = ⟨Except.error (some "timeout 2"), attemptIndices 2,
          List.replicate 1 backoffMs⟩ :=
  ⟨(claim_C6_retry_bound
      (fun j => if j = 2 then Except.ok 42 else Except.error "timeout 1")
      (fun _ => "timeout 1") 2 2 42 (by decide) (by decide) (by decide)).1
      (by
        intro j h1 h2
        have hj : j = 1 := by omega
        subst hj
        rfl) rfl,
   (claim_C6_retry_bound
      (fun j => (Except.error ("timeout " ++ toString j) : Except String Nat))
      (fun j => "timeout " ++ toString j) 2 2 0 (by decide) (by decide) (by decide)).2
      (fun j _ _ => rfl)⟩

/-- The page state that `LoginAssertions.expectInvalidCredentialsError`
observes: whether the primary `loginPage.errorMessage` locator becomes
visible within its bounded waits, whether the combined alternative locator
(`.oxd-alert-content-text, .oxd-alert, [role=alert]` filtered by the
credentials-error text, first match) becomes visible within its bounded wait,
and the text that `loginPage.getErrorMessage()` returns (empty string when it
finds nothing). -/
structure LoginErrorUI where
  primaryVisible : Bool
  altVisible : Bool
  errorText : String
  deriving DecidableEq, Repr

/-- Which selector strategy satisfied the assertion. -/
inductive LoginSel
  | primaryError
  | altError
  deriving DecidableEq, Repr

/-- How the assertion can fail: a visibility-assertion timeout naming the
locator that never became visible (the explicit "error indicator not found"
failure), or the trailing `expect(errorText).toBeTruthy()` failing. -/
inductive AssertErr
  | indicatorNotVisible (sel : LoginSel)
  | emptyErrorText
  deriving DecidableEq, Repr

/-- `expectInvalidCredentialsError()`: try the primary error-message selector
with a bounded wait; on any failure there, fall through to the combined
alternative locator (`catch` block); if that is not visible either, the
assertion rejects with the visibility failure on the alternative
error-indicator locator.  On visibility success it reads the error text and
asserts it is truthy. -/
def expectInvalidCredentialsError (ui : LoginErrorUI) : Except AssertErr LoginSel :=
  let chain : Except AssertErr LoginSel :=
    if ui.primaryVisible then Except.ok LoginSel.primaryError
    else if ui.altVisible then Except.ok LoginSel.altError
    else Except.error (AssertErr.indicatorNotVisible LoginSel.altError)
  match chain with
  | Except.error e => Except.error e
  | Except.ok sel =>
    if ui.errorText = "" then Except.error AssertErr.emptyErrorText
    else Except.ok sel

/-- Claim C7: if the primary error-message selector becomes visible within
its bounded wait, the assertion succeeds using it; if the primary selector
fails, the assertion falls through to the alternative error-indicator locator
and succeeds when it becomes visible; and if no selector in the chain becomes
visible, the assertion fails with the explicit visibility failure on the
error-indicator locator (an error naming the missing error indicator), not
with an unrelated error.  The success cases assume the found indicator
carries non-empty text, as the filtered locators guarantee on a real page. -/
theorem claim_C7_error_indicator_fallback (ui : LoginErrorUI) :
    (ui.primaryVisible = true → ui.errorText ≠ "" →
      expectInvalidCredentialsError ui = Except.ok LoginSel.primaryError)
    ∧ (ui.primaryVisible = false → ui.altVisible = true → ui.errorText ≠ "" →
      expectInvalidCredentialsError ui = Except.ok LoginSel.altError)
    ∧ (ui.primaryVisible = false → ui.altVisible = false →
      expectInvalidCredentialsError ui
        = Except.error (AssertErr.indicatorNotVisible LoginSel.altError)) := by
  refine ⟨?_, ?_, ?_⟩
  · intro hp ht
    simp [expectInvalidCredentialsError, hp, ht]
  · intro hp ha ht
    simp [expectInvalidCredentialsError, hp, ha, ht]
  · intro hp ha
    simp [expectInvalidCredentialsError, hp, ha]

/-- Witness for C7 at three concrete page states: primary visible, only the
alternative visible, and nothing visible. -/
theorem claim_C7_error_indicator_fallback_witness :
    expectInvalidCredentialsError ⟨true, false, "Invalid credentials"⟩
      = Except.ok LoginSel.primaryError
    ∧ expectInvalidCredentialsError ⟨false, true, "Invalid credentials"⟩
      = Except.ok LoginSel.altError
    ∧ expectInvalidCredentialsError ⟨false, false, ""⟩
      = Except.error (AssertErr.indicatorNotVisible LoginSel.altError) :=
  ⟨(claim_C7_error_indicator_fallback ⟨true, false, "Invalid credentials"⟩).1
      rfl (by decide),
   (claim_C7_error_indicator_fallback ⟨false, true, "Invalid credentials"⟩).2.1
      rfl rfl (by decide),
   (claim_C7_error_indicator_fallback ⟨false, false, ""⟩).2.2 rfl rfl⟩

/-- The process environment variables that src/config/environment.ts reads.
`none` models an unset variable; `some s` a variable set to `s`. -/
structure ProcessEnv where
  ENV : Option String
  NODE_ENV : Option String
  STAGING_ADMIN_USER : Option String
  STAGING_ADMIN_PASS : Option String
  STAGING_USER_USER : Option String
  STAGING_USER_PASS : Option String
  PROD_ADMIN_USER : Option String
  PROD_ADMIN_PASS : Option String
  PROD_USER_USER : Option String
  PROD_USER_PASS : Option String
  deriving DecidableEq, Repr

/-- JavaScript's `a || d` on an optional string: an unset variable and the
empty string are both falsy and fall through to the default. -/
def jsOr (v : Option String) (d : String) : String :=
  match v with
  | some s => if s = "" then d else s
  | none => d

/-- A username/password pair. -/
structure Credentials where
  username : String
  password : String
  deriving DecidableEq, Repr

/-- `EnvironmentConfig` (the nested `credentials.admin` / `credentials.user`
objects are flattened into the two `Credentials` fields). -/
structure EnvironmentConfig where
  baseURL : String
  apiURL : String
  timeout : Nat
  adminCred : Credentials
  userCred : Credentials
  deriving DecidableEq, Repr

/-- `getEnvironment()`: `process.env.ENV || process.env.NODE_ENV || 'dev'`
(returned unvalidated via `env as Environment`). -/
def getEnvironment (p : ProcessEnv) : String :=
  jsOr p.ENV (jsOr p.NODE_ENV "dev")

/-- The `[Environment.DEV]` entry: every field, credentials included, is a
hard-coded constant; no process variable is consulted. -/
def devConfig : EnvironmentConfig :=
  { baseURL := "https://opensource-demo.orangehrmlive.com"
    apiURL := "https://opensource-demo.orangehrmlive.com/web/index.php/api"
    timeout := 30000
    adminCred := ⟨"Admin", "admin123"⟩
    userCred := ⟨"testuser", "testpass123"⟩ }

/-- The `[Environment.STAGING]` entry: credentials overridable by the
`STAGING_*` variables with built-in defaults. -/
def stagingConfig (p : ProcessEnv) : EnvironmentConfig :=
  { baseURL := "https://staging.example.com"
    apiURL := "https://staging.example.com/api"
    timeout := 30000
    adminCred := ⟨jsOr p.STAGING_ADMIN_USER "admin", jsOr p.STAGING_ADMIN_PASS "admin123"⟩
    userCred := ⟨jsOr p.STAGING_USER_USER "user", jsOr p.STAGING_USER_PASS "user123"⟩ }

/-- The `[Environment.PRODUCTION]` entry: credentials overridable by the
`PROD_*` variables, defaulting to the empty string. -/
def productionConfig (p : ProcessEnv) : EnvironmentConfig :=
  { baseURL := "https://production.example.com"
    apiURL := "https://production.example.com/api"
    timeout := 60000
    adminCred := ⟨jsOr p.PROD_ADMIN_USER "", jsOr p.PROD_ADMIN_PASS ""⟩
    userCred := ⟨jsOr p.PROD_USER_USER "", jsOr p.PROD_USER_PASS ""⟩ }

/-- The `environments` record indexed by the (unvalidated) environment name:
`environments[env]` is `undefined` (`none`) for any name outside the three
declared keys. -/
def environments (p : ProcessEnv) (name : String) : Option EnvironmentConfig :=
  if name = "dev" then some devConfig
  else if name = "staging" then some (stagingConfig p)
  else if name = "production" then some (productionConfig p)
  else none

/-- `getConfig()`: `environments[getEnvironment()]`. -/
def getConfig (p : ProcessEnv) : Option EnvironmentConfig :=
  environments p (getEnvironment p)

/-- `getBaseURL()`: reads `.baseURL` of `getConfig()`.  `none` models the
TypeError thrown when the config is `undefined`. -/
def getBaseURL (p : ProcessEnv) : Option String :=
  (getConfig p).map (fun c => c.baseURL)

/-- `getAPIURL()`: reads `.apiURL` of `getConfig()`. -/
def getAPIURL (p : ProcessEnv) : Option String :=
  (getConfig p).map (fun c => c.apiURL)

/-- The role argument of `getCredentials`. -/
inductive Role
  | admin
  | user
  deriving DecidableEq, Repr

/-- `getCredentials(role)`: reads `.credentials[role]` of `getConfig()`. -/
def getCredentials (p : ProcessEnv) (role : Role) : Option Credentials :=
  (getConfig p).map (fun c =>
    match role with
    | Role.admin => c.adminCred
    | Role.user => c.userCred)

/-- A process environment with every credential variable the module reads set
to "OVERRIDE", and the environment name set to dev. -/
def penvAllOverride : ProcessEnv :=
  ⟨some "dev", none, some "OVERRIDE", some "OVERRIDE", some "OVERRIDE",
   some "OVERRIDE", some "OVERRIDE", some "OVERRIDE", some "OVERRIDE",
   some "OVERRIDE"⟩

/-- Counterexample to claim C8: the claim says each role's credentials "may
be overridden by dedicated variables" in EVERY environment, but the dev
configuration consults no variable at all: with every credential variable the
module reads set to "OVERRIDE", the dev credentials are still the built-in
constants. -/
theorem claim_C8_counterexample :
    getCredentials penvAllOverride Role.admin = some ⟨"Admin", "admin123"⟩
    ∧ getCredentials penvAllOverride Role.user = some ⟨"testuser", "testpass123"⟩
    ∧ (⟨"Admin", "admin123"⟩ : Credentials) ≠ ⟨"OVERRIDE", "OVERRIDE"⟩ := by
  refine ⟨rfl, rfl, by decide⟩

/-- Claim C8 as amended: when both name variables (ENV, NODE_ENV) are unset,
resolution yields the fixed dev configuration.  The dev environment's
credentials are hard-coded constants with no override variables; the staging
and production credentials may each be overridden by their dedicated
variables, with built-in defaults used for staging when unset and the empty
string for production when unset. -/
theorem claim_C8_amended_env_credentials
    (p0 pd ps1 ps2 pp1 pp2 : ProcessEnv) (au ap uu up : String)
    (hau : au ≠ "") (hap : ap ≠ "") (huu : uu ≠ "") (hup : up ≠ "")
    (h0e : p0.ENV = none) (h0n : p0.NODE_ENV = none)
    (hd : getEnvironment pd = "dev")
    (hs1 : getEnvironment ps1 = "staging")
    (hs1a : ps1.STAGING_ADMIN_USER = none) (hs1b : ps1.STAGING_ADMIN_PASS = none)
    (hs1c : ps1.STAGING_USER_USER = none) (hs1d : ps1.STAGING_USER_PASS = none)
    (hs2 : getEnvironment ps2 = "staging")
    (hs2a : ps2.STAGING_ADMIN_USER = some au) (hs2b : ps2.STAGING_ADMIN_PASS = some ap)
    (hs2c : ps2.STAGING_USER_USER = some uu) (hs2d : ps2.STAGING_USER_PASS = some up)
    (hp1 : getEnvironment pp1 = "production")
    (hp1a : pp1.PROD_ADMIN_USER = none) (hp1b : pp1.PROD_ADMIN_PASS = none)
    (hp1c : pp1.PROD_USER_USER = none) (hp1d : pp1.PROD_USER_PASS = none)
    (hp2 : getEnvironment pp2 = "production")
    (hp2a : pp2.PROD_ADMIN_USER = some au) (hp2b : pp2.PROD_ADMIN_PASS = some ap)
    (hp2c : pp2.PROD_USER_USER = some uu) (hp2d : pp2.PROD_USER_PASS = some up) :
    getConfig p0 = some devConfig
    ∧ getCredentials pd Role.admin = some ⟨"Admin", "admin123"⟩
    ∧ getCredentials pd Role.user = some ⟨"testuser", "testpass123"⟩
    ∧ getCredentials ps1 Role.admin = some ⟨"admin", "admin123"⟩
    ∧ getCredentials ps1 Role.user = some ⟨"user", "user123"⟩
    ∧ getCredentials ps2 Role.admin = some ⟨au, ap⟩
    ∧ getCredentials ps2 Role.user = some ⟨uu, up⟩
    ∧ getCredentials pp1 Role.admin = some ⟨"", ""⟩
    ∧ getCredentials pp1 Role.user = some ⟨"", ""⟩
    ∧ getCredentials pp2 Role.admin = some ⟨au, ap⟩
    ∧ getCredentials pp2 Role.user = some ⟨uu, up⟩ := by
  refine ⟨?_, ?_, ?_, ?_, ?_, ?_, ?_, ?_, ?_, ?_, ?_⟩
  · simp [getConfig, getEnvironment, environments, h0e, h0n, jsOr]
  · simp [getCredentials, getConfig, environments, hd, devConfig]
  · simp [getCredentials, getConfig, environments, hd, devConfig]
  · simp [getCredentials, getConfig, environments, hs1, stagingConfig, jsOr,
      hs1a, hs1b, hs1c, hs1d]
  · simp [getCredentials, getConfig, environments, hs1, stagingConfig, jsOr,
      hs1a, hs1b, hs1c, hs1d]
  · simp [getCredentials, getConfig, environments, hs2, stagingConfig, jsOr,
      hs2a, hs2b, hs2c, hs2d, hau, hap, huu, hup]
  · simp [getCredentials, getConfig, environments, hs2, stagingConfig, jsOr,
      hs2a, hs2b, hs2c, hs2d, hau, hap, huu, hup]
  · simp [getCredentials, getConfig, environments, hp1, productionConfig, jsOr,
      hp1a, hp1b, hp1c, hp1d]
  · simp [getCredentials, getConfig, environments, hp1, productionConfig, jsOr,
      hp1a, hp1b, hp1c, hp1d]
  · simp [getCredentials, getConfig, environments, hp2, productionConfig, jsOr,
      hp2a, hp2b, hp2c, hp2d, hau, hap, huu, hup]
  · simp [getCredentials, getConfig, environments, hp2, productionConfig, jsOr,
      hp2a, hp2b, hp2c, hp2d, hau, hap, huu, hup]

/-- A process environment with nothing set. -/
def penvUnset : ProcessEnv :=
  ⟨none, none, none, none, none, none, none, none, none, none⟩

/-- Staging selected, no credential overrides. -/
def penvStagingPlain : ProcessEnv :=
  ⟨some "staging", none, none, none, none, none, none, none, none, none⟩

/-- Staging selected, all staging credential overrides set. -/
def penvStagingOverride : ProcessEnv :=
  ⟨some "staging", none, some "su", some "sp", some "uu", some "up",
   none, none, none, none⟩

/-- Production selected, no credential overrides. -/
def penvProdPlain : ProcessEnv :=
  ⟨some "production", none, none, none, none, none, none, none, none, none⟩

/-- Production selected, all production credential overrides set. -/
def penvProdOverride : ProcessEnv :=
  ⟨some "production", none, none, none, none, none, some "su", some "sp",
   some "uu", some "up"⟩

/-- Witness for the amended C8 at concrete process environments. -/
theorem claim_C8_amended_env_credentials_witness :
    getConfig penvUnset = some devConfig
    ∧ getCredentials penvAllOverride Role.admin = some ⟨"Admin", "admin123"⟩
    ∧ getCredentials penvAllOverride Role.user = some ⟨"testuser", "testpass123"⟩
    ∧ getCredentials penvStagingPlain Role.admin = some ⟨"admin", "admin123"⟩
    ∧ getCredentials penvStagingPlain Role.user = some ⟨"user", "user123"⟩
    ∧ getCredentials penvStagingOverride Role.admin = some ⟨"su", "sp"⟩
    ∧ getCredentials penvStagingOverride Role.user = some ⟨"uu", "up"⟩
    ∧ getCredentials penvProdPlain Role.admin = some ⟨"", ""⟩
    ∧ getCredentials penvProdPlain Role.user = some ⟨"", ""⟩
    ∧ getCredentials penvProdOverride Role.admin = some ⟨"su", "sp"⟩
    ∧ getCredentials penvProdOverride Role.user = some ⟨"uu", "up"⟩ :=
  claim_C8_amended_env_credentials penvUnset penvAllOverride penvStagingPlain
    penvStagingOverride penvProdPlain penvProdOverride "su" "sp" "uu" "up"
    (by decide) (by decide) (by decide) (by decide)
    rfl rfl (by decide) (by decide) rfl rfl rfl rfl
    (by decide) rfl rfl rfl rfl
    (by decide) rfl rfl rfl rfl
    (by decide) rfl rfl rfl rfl

/-- A process environment whose ENV variable is SET to the empty string. -/
def penvEmptyEnv : ProcessEnv :=
  ⟨some "", none, none, none, none, none, none, none, none, none⟩

/-- Counterexample to claim C10: the empty string is a value of the
environment-name variable outside the fixed set, yet configuration lookup
does NOT yield undefined — JavaScript's `||` treats the set-but-empty
variable as falsy, so resolution falls back to the dev configuration and
`getBaseURL` succeeds.  The dev fallback therefore does not apply "only when
the variable is entirely unset". -/
theorem claim_C10_counterexample :
    penvEmptyEnv.ENV = some ""
    ∧ ("" ∈ (["dev", "staging", "production"] : List String)) = False
    ∧ getConfig penvEmptyEnv = some devConfig
    ∧ getBaseURL penvEmptyEnv = some "https://opensource-demo.orangehrmlive.com" := by
  refine ⟨rfl, by simp, rfl, rfl⟩

/-- Claim C10 as amended: environment-name resolution performs no validation,
but with JavaScript falsiness — for every process environment whose RESOLVED
name (`ENV || NODE_ENV || 'dev'`) lies outside the fixed set {dev, staging,
production}, lookup yields no configuration and `getBaseURL`, `getAPIURL` and
`getCredentials` all fail; the dev fallback applies exactly when both name
variables are unset OR set to the empty string (not only when entirely
unset). -/
theorem claim_C10_amended_no_validation (p : ProcessEnv)
    (h : getEnvironment p ∉ (["dev", "staging", "production"] : List String)) :
    getConfig p = none
    ∧ getBaseURL p = none
    ∧ getAPIURL p = none
    ∧ getCredentials p Role.admin = none
    ∧ getCredentials p Role.user = none
    ∧ (∀ q : ProcessEnv, (q.ENV = none ∨ q.ENV = some "") →
        (q.NODE_ENV = none ∨ q.NODE_ENV = some "") →
        getConfig q = some devConfig) := by
  simp only [List.mem_cons, List.mem_singleton, not_or] at h
  obtain ⟨h1, h2, h3⟩ := h
  have hnone : getConfig p = none := by
    simp [getConfig, environments, h1, h2, h3]
  refine ⟨hnone, ?_, ?_, ?_, ?_, ?_⟩
  · simp [getBaseURL, hnone]
  · simp [getAPIURL, hnone]
  · simp [getCredentials, hnone]
  · simp [getCredentials, hnone]
  · intro q hq hqn
    rcases hq with hq | hq <;> rcases hqn with hqn | hqn <;>
      simp [getConfig, getEnvironment, environments, jsOr, hq, hqn]

/-- Witness for the amended C10 at a concrete process environment whose ENV
is set to a name outside the fixed set. -/
theorem claim_C10_amended_no_validation_witness :
    getConfig ⟨some "qa", none, none, none, none, none, none, none, none, none⟩
      = none
    ∧ getBaseURL ⟨some "qa", none, none, none, none, none, none, none, none, none⟩
      = none
    ∧ getAPIURL ⟨some "qa", none, none, none, none, none, none, none, none, none⟩
      = none
    ∧ getCredentials
        ⟨some "qa", none, none, none, none, none, none, none, none, none⟩
        Role.admin = none
    ∧ getCredentials
        ⟨some "qa", none, none, none, none, none, none, none, none, none⟩
        Role.user = none
    ∧ (∀ q : ProcessEnv, (q.ENV = none ∨ q.ENV = some "") →
        (q.NODE_ENV = none ∨ q.NODE_ENV = some "") →
        getConfig q = some devConfig) :=
  claim_C10_amended_no_validation
    ⟨some "qa", none, none, none, none, none, none, none, none, none⟩
    (by decide)
